import Mathlib

/-!
Verification development for the `gethired_agents` job-search coordinator.

We give a shallow embedding of the task-orchestration core:
* `jobsearch_agents/coordinator/task_manager.py` (`TaskManager.process_task`),
* the result-extraction logic shared with
  `jobsearch_agents/common/a2a_server.py` (`unwrap_json_string`),
* `jobsearch_agents/coordinator/agent.py` (`create_coordinator_agent`).

Python values are modelled by an inductive `PyVal`; Python truthiness by
`truthy`.  External library behaviour that the code relies on is modelled
explicitly: `json_loads` models Python's `json.loads` on the JSON fragment
the agents exchange (objects, arrays, strings with simple escapes, integer
and decimal numbers, booleans, null), and `stripFence` models
`re.sub(r"^```(?:json)?\n|```$", "", s.strip())` — since the input is
stripped first, the leading alternative can only match a fence prefix at
position 0 and the trailing alternative only a fence suffix at the end.
Effectful collaborators (session service, the ADK event stream) are
modelled as oracle inputs, and the observable side effects (sessions
created, stream started, generator closes) are recorded in a trace.
-/

namespace GetHired

/-- Model of the Python values flowing through the task manager. -/
inductive PyVal where
  | none : PyVal
  | bool (b : Bool) : PyVal
  | int (n : Int) : PyVal
  | float (q : Rat) : PyVal
  | str (s : String) : PyVal
  | list (xs : List PyVal) : PyVal
  | dict (kvs : List (String × PyVal)) : PyVal
deriving Repr

/-- Python truthiness (`bool(v)`): `None`, `False`, zero, and empty
containers/strings are falsy. -/
def truthy : PyVal → Bool
  | .none => false
  | .bool b => b
  | .int n => n != 0
  | .float q => q != 0
  | .str s => !s.isEmpty
  | .list xs => !xs.isEmpty
  | .dict kvs => !kvs.isEmpty

/-- Model of `d.get(k)` / `k in d` on a Python dict modelled as an association list
(first binding wins, mirroring dict key uniqueness). -/
def dictGet (kvs : List (String × PyVal)) (k : String) : Option PyVal :=
  (kvs.find? (fun p => p.1 == k)).map (fun p => p.2)

/-- Python `str()` for the values the task manager interpolates into
messages and generated session ids.  Container reprs are abbreviated; no
claim depends on them. -/
def pyStr : PyVal → String
  | .none => "None"
  | .bool true => "True"
  | .bool false => "False"
  | .int n => toString n
  | .float q => toString q
  | .str s => s
  | .list _ => "[...]"
  | .dict _ => "\x7b...\x7d"

/-! ### JSON parsing (model of `json.loads`) -/

/-- Skip JSON whitespace. -/
def skipWs : List Char → List Char
  | c :: cs => if c = ' ' ∨ c = '\n' ∨ c = '\t' ∨ c = '\r' then skipWs cs else c :: cs
  | [] => []

/-- JSON string escape characters (`\"`, `\\`, `\/`, `\n`, `\t`, `\r`,
`\b`, `\f`). -/
def escChar (c : Char) : Char :=
  if c = 'n' then '\n'
  else if c = 't' then '\t'
  else if c = 'r' then '\r'
  else if c = 'b' then (Char.ofNat 8)
  else if c = 'f' then (Char.ofNat 12)
  else c

/-- Parse the body of a JSON string after the opening quote, returning the
decoded string and the remaining input. -/
def parseStringBody : List Char → Option (String × List Char)
  | [] => Option.none
  | c :: cs =>
    if c = '"' then some ("", cs)
    else if c = '\\' then
      match cs with
      | d :: cs2 =>
        match parseStringBody cs2 with
        | some (s, rest) => some (String.mk [escChar d] ++ s, rest)
        | Option.none => Option.none
      | [] => Option.none
    else
      match parseStringBody cs with
      | some (s, rest) => some (String.mk [c] ++ s, rest)
      | Option.none => Option.none

/-- Parse a nonempty run of decimal digits. -/
def parseDigits : List Char → Option (Nat × Nat × List Char)
  | c :: cs =>
    if c.isDigit then
      match parseDigits cs with
      | some (v, len, rest) => some ((c.toNat - 48) * 10 ^ len + v, len + 1, rest)
      | Option.none => some (c.toNat - 48, 1, cs)
    else Option.none
  | [] => Option.none

/-- Parse a JSON number: optional minus, digits, optional fraction.
Integer literals become `PyVal.int`, decimals become `PyVal.float`. -/
def parseNumber (cs : List Char) : Option (PyVal × List Char) :=
  let (neg, cs1) := match cs with
    | c :: rest => if c = '-' then (true, rest) else (false, cs)
    | [] => (false, cs)
  match parseDigits cs1 with
  | some (ip, _, rest) =>
    match rest with
    | '.' :: rest2 =>
      match parseDigits rest2 with
      | some (fp, flen, rest3) =>
        let q : Rat := (ip : Rat) + (fp : Rat) / ((10 : Rat) ^ flen)
        some (PyVal.float (if neg then -q else q), rest3)
      | Option.none => Option.none
    | _ =>
      some (PyVal.int (if neg then -(ip : Int) else (ip : Int)), rest)
  | Option.none => Option.none

mutual

/-- Parse one JSON value (fuel-bounded recursive descent). -/
def parseValue : Nat → List Char → Option (PyVal × List Char)
  | 0, _ => Option.none
  | fuel + 1, cs =>
    match skipWs cs with
    | '{' :: rest => parseMembers fuel (skipWs rest)
    | '[' :: rest => parseElements fuel (skipWs rest)
    | '"' :: rest =>
      match parseStringBody rest with
      | some (s, rest2) => some (PyVal.str s, rest2)
      | Option.none => Option.none
    | 't' :: 'r' :: 'u' :: 'e' :: rest => some (PyVal.bool true, rest)
    | 'f' :: 'a' :: 'l' :: 's' :: 'e' :: rest => some (PyVal.bool false, rest)
    | 'n' :: 'u' :: 'l' :: 'l' :: rest => some (PyVal.none, rest)
    | rest => parseNumber rest

/-- Parse object members after `{` (with leading whitespace consumed). -/
def parseMembers : Nat → List Char → Option (PyVal × List Char)
  | 0, _ => Option.none
  | fuel + 1, cs =>
    match cs with
    | '}' :: rest => some (PyVal.dict [], rest)
    | '"' :: rest =>
      match parseStringBody rest with
      | some (k, rest2) =>
        match skipWs rest2 with
        | ':' :: rest3 =>
          match parseValue fuel rest3 with
          | some (v, rest4) =>
            match skipWs rest4 with
            | ',' :: rest5 =>
              match parseMembers fuel (skipWs rest5) with
              | some (PyVal.dict kvs, rest6) => some (PyVal.dict ((k, v) :: kvs), rest6)
              | _ => Option.none
            | '}' :: rest5 => some (PyVal.dict [(k, v)], rest5)
            | _ => Option.none
          | Option.none => Option.none
        | _ => Option.none
      | Option.none => Option.none
    | _ => Option.none

/-- Parse array elements after `[` (with leading whitespace consumed). -/
def parseElements : Nat → List Char → Option (PyVal × List Char)
  | 0, _ => Option.none
  | fuel + 1, cs =>
    match cs with
    | ']' :: rest => some (PyVal.list [], rest)
    | _ =>
      match parseValue fuel cs with
      | some (v, rest) =>
        match skipWs rest with
        | ',' :: rest2 =>
          match parseElements fuel (skipWs rest2) with
          | some (PyVal.list xs, rest3) => some (PyVal.list (v :: xs), rest3)
          | _ => Option.none
        | ']' :: rest2 => some (PyVal.list [v], rest2)
        | _ => Option.none
      | Option.none => Option.none

end

/-- Model of `json.loads`: parse one value and require only whitespace to
remain.  Fuel is the input length plus one, which bounds the nesting depth
(each nesting level consumes at least one bracket). -/
def json_loads (s : String) : Option PyVal :=
  match parseValue (s.length + 1) s.data with
  | some (v, rest) => if (skipWs rest).isEmpty then some v else Option.none
  | Option.none => Option.none

/-! ### Markdown fence stripping -/

/-- The ASCII whitespace stripped by Python `str.strip()`. -/
def isPyWs (c : Char) : Bool :=
  c = ' ' || c = '\t' || c = '\n' || c = '\r' || c = '\x0b' || c = '\x0c'

/-- Drop leading whitespace characters. -/
def dropWhileWs : List Char → List Char
  | c :: cs => if isPyWs c then dropWhileWs cs else c :: cs
  | [] => []

/-- Python `s.strip()`: remove leading and trailing whitespace. -/
def pyStrip (s : String) : String :=
  String.mk ((dropWhileWs ((dropWhileWs s.data).reverse)).reverse)

/-- Model of `s.startswith(p)`. -/
def strStartsWith (s p : String) : Bool :=
  p.data.isPrefixOf s.data

/-- Model of `s.endswith(p)`. -/
def strEndsWith (s p : String) : Bool :=
  p.data.reverse.isPrefixOf s.data.reverse

/-- Model of `re.sub(r"^```(?:json)?\n|```$", "", s.strip())` from
`task_manager.py` lines 223/234 and `a2a_server.py` line 200.  After
`strip()` the text has no trailing newline, so `$` can only match at the
very end; `^` (no MULTILINE) only matches at position 0. -/
def stripFence (s : String) : String :=
  let t := pyStrip s
  let t1 :=
    if strStartsWith t "```json\n" then t.drop 8
    else if strStartsWith t "```\n" then t.drop 4
    else t
  if strEndsWith t1 "```" then t1.dropRight 3 else t1

/-- The job-listings / company-research extraction step of
`task_manager.py` lines 216-227: a string is fence-stripped and parsed
(a parse failure is caught, leaving the field absent); any other value is
passed through unchanged. -/
def extractField (v : PyVal) : Option PyVal :=
  match v with
  | .str s => json_loads (stripFence s)
  | v => some v

/-- Model of `unwrap_json_string` from `a2a_server.py` lines 194-205: a falsy
argument (None or empty string) yields None; otherwise fence-strip and
parse, returning None on `JSONDecodeError`. -/
def unwrap_json_string (json_block : Option String) : Option PyVal :=
  match json_block with
  | Option.none => Option.none
  | some s => if s.isEmpty then Option.none else json_loads (stripFence s)

/-! ### Step events and their consumption

Model of the ADK events consumed by `process_events_with_timeout`
(`task_manager.py` lines 131-159).  `stateUpdate = Option.none` models the
`state_update` attribute being absent or `None` (the code guards with
`hasattr(event, 'state_update') and event.state_update`); a part's text is
modelled as a `String`, with `""` standing for a falsy/absent text. -/

/-- Model of `event.content`: a role-tagged list of text parts. -/
structure Content where
  role : String
  parts : List String

/-- One step event emitted by the running pipeline. -/
structure Event where
  stateUpdate : Option (List (String × PyVal))
  isFinal : Bool
  content : Option Content

/-- The local accumulator of `process_task` (`task_manager.py` lines
115-119). -/
structure Acc where
  job_listings : PyVal := PyVal.none
  company_research : PyVal := PyVal.none
  final_message : String := "Processing job search..."
  raw_events : List Event := []

/-- Line 136: `raw_events.append(event.model_dump(exclude_none=True))`. -/
def appendRaw (acc : Acc) (e : Event) : Acc :=
  { acc with raw_events := acc.raw_events ++ [e] }

/-- Lines 139-146: a truthy `state_update` overwrites the accumulator
fields for the recognized keys. -/
def applyStateUpdate (acc : Acc) (e : Event) : Acc :=
  match e.stateUpdate with
  | some su =>
    if su.isEmpty then acc
    else
      let acc1 :=
        match dictGet su "job_listings" with
        | some v => { acc with job_listings := v }
        | Option.none => acc
      match dictGet su "company_research_report" with
      | some v => { acc1 with company_research := v }
      | Option.none => acc1
  | Option.none => acc

/-- Lines 149-151: the text that a terminal model-authored event with a
non-empty first part contributes as final message, if any. -/
def finalText (e : Event) : Option String :=
  match e.content with
  | some c =>
    if e.isFinal && c.role == "model" then
      match c.parts with
      | t :: _ => if t.isEmpty then Option.none else some t
      | [] => Option.none
    else Option.none
  | Option.none => Option.none

/-- Lines 149-152: overwrite `final_message` when the event qualifies. -/
def applyFinalMessage (acc : Acc) (e : Event) : Acc :=
  match finalText e with
  | some t => { acc with final_message := t }
  | Option.none => acc

/-- One iteration of the `async for` loop (lines 135-152). -/
def consumeEvent (acc : Acc) (e : Event) : Acc :=
  applyFinalMessage (applyStateUpdate (appendRaw acc e) e) e

/-- Consuming a whole event sequence in emission order. -/
def consumeEvents (evs : List Event) : Acc :=
  evs.foldl consumeEvent {}

/-! ### The orchestrator -/

/-- Result of a `get_session` call, as an oracle input: a (truthy) session
with its state map, no session, or the lookup raising. -/
inductive LookupResult where
  | found (state : List (String × PyVal))
  | notFound
  | raised (excType : String) (excText : String)

/-- How one drive of the event stream ends: all events consumed before the
deadline, `asyncio.TimeoutError` after some prefix, or some other
exception (class name and text) after some prefix. -/
inductive RunResult where
  | completed (events : List Event)
  | timedOut (events : List Event)
  | failed (events : List Event) (excType : String) (excText : String)

/-- Oracle for the effectful collaborators of one `process_task` call. -/
structure Env where
  lookup : LookupResult
  finalLookup : LookupResult
  run : RunResult
  genSuffix : String

/-- The outcome dict returned by `process_task`. -/
structure Outcome where
  message : String
  status : String
  data : List (String × PyVal)

/-- Observable side effects of one `process_task` call: `get_session`
attempts, `create_session` calls with their (app, user, session id,
initial state) arguments, whether `run_async` was started, and how many
times `aclose()` was invoked on the generator. -/
structure Trace where
  lookups : Nat := 0
  created : List (String × String × String × List (String × PyVal)) := []
  streamStarted : Bool := false
  closes : Nat := 0

/-- Constant from `task_manager.py` line 21. -/
def A2A_APP_NAME : String := "job_search_assistant"

/-- Constant from `task_manager.py` line 24. -/
def DEFAULT_TIMEOUT : Rat := 300

/-- The task manager configuration relevant to the model. -/
structure TaskManager where
  timeout : Rat := DEFAULT_TIMEOUT

/-- Lines 70-72: generate a session id when the given one is falsy. -/
def resolveSessionId (user_id : String) (session_id : Option String)
    (suffix : String) : String :=
  match session_id with
  | some s => if s.isEmpty then user_id ++ "_job_search_" ++ suffix else s
  | Option.none => user_id ++ "_job_search_" ++ suffix

/-- Lines 190-208: after a completed run, re-read the session; when it
exists and its state is truthy, backfill each accumulator field that is
still falsy from the persisted state; a lookup error is swallowed.
Returns the (job listings, company research) pair used for the response. -/
def backfill (acc : Acc) (finalLookup : LookupResult) : PyVal × PyVal :=
  match finalLookup with
  | .found st =>
    if st.isEmpty then (acc.job_listings, acc.company_research)
    else
      let jl :=
        if truthy acc.job_listings then acc.job_listings
        else
          match dictGet st "job_listings" with
          | some v => v
          | Option.none => acc.job_listings
      let cr :=
        if truthy acc.company_research then acc.company_research
        else
          match dictGet st "company_research_report" with
          | some v => v
          | Option.none => acc.company_research
      (jl, cr)
  | _ => (acc.job_listings, acc.company_research)

/-- Model of `event.model_dump(exclude_none=True)`. -/
def eventDump (e : Event) : PyVal :=
  PyVal.dict
    ((match e.stateUpdate with
      | some su => [("state_update", PyVal.dict su)]
      | Option.none => []) ++
     [("is_final", PyVal.bool e.isFinal)] ++
     (match e.content with
      | some c =>
        [("content", PyVal.dict
          [("role", PyVal.str c.role),
           ("parts", PyVal.list (c.parts.map PyVal.str))])]
      | Option.none => []))

/-- Model of `raw_events[-3:]`. -/
def takeLast3 (l : List Event) : List Event :=
  l.drop (l.length - 3)

/-- Lines 210-238: build the response data map.  `import json` / `import re`
execute only inside the `if job_listings:` branch, so when that branch was
not entered a string-valued company research hits an unbound local name,
which the surrounding `except` swallows (field left absent). -/
def buildResponseData (raw : List Event) (jl cr : PyVal) : List (String × PyVal) :=
  let response_data := [("raw_events", PyVal.list ((takeLast3 raw).map eventDump))]
  let importsBound := truthy jl
  let response_data :=
    if truthy jl then
      match extractField jl with
      | some v => response_data ++ [("job_listings", v)]
      | Option.none => response_data
    else response_data
  if truthy cr then
    match cr with
    | .str s =>
      if importsBound then
        match json_loads (stripFence s) with
        | some v => response_data ++ [("company_research", v)]
        | Option.none => response_data
      else response_data
    | v => response_data ++ [("company_research", v)]
  else response_data

/-- Lines 189-245: the success outcome of a run that completed before the
deadline. -/
def completedOutcome (evs : List Event) (finalLookup : LookupResult) : Outcome :=
  let acc := consumeEvents evs
  let p := backfill acc finalLookup
  { message := acc.final_message
    status := "success"
    data := buildResponseData acc.raw_events p.1 p.2 }

/-- Model of `TaskManager.process_task` (`task_manager.py` lines 48-253), with the
session service and the event stream supplied as oracle inputs and the
observable side effects returned as a trace. -/
def process_task (tm : TaskManager) (message : String)
    (context : List (String × PyVal)) (session_id : Option String)
    (env : Env) : Outcome × Trace :=
  let user_id_val := (dictGet context "user_id").getD PyVal.none
  if !truthy user_id_val then
    ({ message := "user_id is required in the request"
       status := "error"
       data := [("error_type", PyVal.str "ValidationError")] }, {})
  else
    let user_id := pyStr user_id_val
    let sid := resolveSessionId user_id session_id env.genSuffix
    let t1 : Trace :=
      match env.lookup with
      | .found _ => { lookups := 1 }
      | .notFound => { lookups := 1, created := [(A2A_APP_NAME, user_id, sid, [])] }
      | .raised _ _ => { lookups := 1, created := [(A2A_APP_NAME, user_id, sid, [])] }
    match env.run with
    | .timedOut _ =>
      ({ message := "Request timed out after " ++ pyStr (PyVal.float tm.timeout) ++
           " seconds. Please try again."
         status := "error"
         data := [("error_type", PyVal.str "TimeoutError"),
                  ("timeout", PyVal.float tm.timeout)] },
       { t1 with streamStarted := true, closes := 2 })
    | .failed _ excType excText =>
      ({ message := "Error processing your request: " ++ excText
         status := "error"
         data := [("error_type", PyVal.str excType)] },
       { t1 with streamStarted := true, closes := 1 })
    | .completed evs =>
      (completedOutcome evs env.finalLookup,
       { t1 with lookups := 2, streamStarted := true, closes := 1 })

/-! ### Pipeline composition (`coordinator/agent.py` lines 16-42) -/

/-- Oracle: whether each of the three awaited sub-agent creations
(`coach_agent()`, `jobsearch_agent()`, `company_research_agent()`)
succeeds (acquiring that agent's resource lease) or raises. -/
structure ComposeEnv where
  coach : Except String Unit
  listing : Except String Unit
  research : Except String Unit

/-- Lease bookkeeping observable from a composition call: how many leases
were acquired, and how many of them were released by the time the call
returned or its exception propagated. -/
structure ComposeTrace where
  acquired : Nat
  released : Nat

/-- Model of `create_coordinator_agent`: it enters an `AsyncExitStack`, then awaits
the three sub-agent creations in order, entering each returned sub-stack
into the exit stack.  The function body has no `try`/`except` and no
`async with` around the awaits, so when the N-th creation raises, the
exception propagates with the exit stack never exited: none of the
already-acquired leases is released.  On success the exit stack (holding
all three leases, to be released later by the caller) is returned. -/
def create_coordinator_agent (env : ComposeEnv) : Except String Unit × ComposeTrace :=
  match env.coach with
  | .error e => (.error e, ⟨0, 0⟩)
  | .ok _ =>
    match env.listing with
    | .error e => (.error e, ⟨1, 0⟩)
    | .ok _ =>
      match env.research with
      | .error e => (.error e, ⟨2, 0⟩)
      | .ok _ => (.ok (), ⟨3, 0⟩)

/-! ### Spec-side characterizations

These two definitions follow the spec's words ("last write wins" per state
key; "the last terminal event with a non-empty content payload determines
the final message") and are compared with the event-consumption loop
embedded above. -/

/-- The partial-state value an event carries for key `k`, when its
`state_update` is truthy and contains `k`. -/
def updateValue (e : Event) (k : String) : Option PyVal :=
  match e.stateUpdate with
  | some su => if su.isEmpty then Option.none else dictGet su k
  | Option.none => Option.none

/-- Spec side: the value of the last event in the sequence that updates
key `k`, if any ("last write wins"). -/
def lastWriteValue (k : String) : List Event → Option PyVal
  | [] => Option.none
  | e :: evs => (lastWriteValue k evs).orElse (fun _ => updateValue e k)

/-- Spec side: the text of the last terminal, model-authored event with a
non-empty first text part, if any. -/
def lastFinalText : List Event → Option String
  | [] => Option.none
  | e :: evs => (lastFinalText evs).orElse (fun _ => finalText e)

/-! ### Lemmas about event consumption -/

theorem applyFinalMessage_job_listings (a : Acc) (e : Event) :
    (applyFinalMessage a e).job_listings = a.job_listings := by
  unfold applyFinalMessage
  cases h : finalText e <;> simp

theorem applyFinalMessage_company (a : Acc) (e : Event) :
    (applyFinalMessage a e).company_research = a.company_research := by
  unfold applyFinalMessage
  cases h : finalText e <;> simp

theorem applyFinalMessage_final (a : Acc) (e : Event) :
    (applyFinalMessage a e).final_message = (finalText e).getD a.final_message := by
  unfold applyFinalMessage
  cases h : finalText e <;> simp

theorem applyStateUpdate_final (a : Acc) (e : Event) :
    (applyStateUpdate a e).final_message = a.final_message := by
  unfold applyStateUpdate
  cases h : e.stateUpdate with
  | none => simp
  | some su =>
    by_cases he : su.isEmpty <;>
      cases hj : dictGet su "job_listings" <;>
        cases hc : dictGet su "company_research_report" <;> simp [he, hj, hc]

theorem applyStateUpdate_job_listings (a : Acc) (e : Event) :
    (applyStateUpdate a e).job_listings =
      (updateValue e "job_listings").getD a.job_listings := by
  unfold applyStateUpdate updateValue
  cases h : e.stateUpdate with
  | none => simp
  | some su =>
    by_cases he : su.isEmpty <;>
      cases hj : dictGet su "job_listings" <;>
        cases hc : dictGet su "company_research_report" <;> simp [he, hj, hc]

theorem applyStateUpdate_company (a : Acc) (e : Event) :
    (applyStateUpdate a e).company_research =
      (updateValue e "company_research_report").getD a.company_research := by
  unfold applyStateUpdate updateValue
  cases h : e.stateUpdate with
  | none => simp
  | some su =>
    by_cases he : su.isEmpty <;>
      cases hj : dictGet su "job_listings" <;>
        cases hc : dictGet su "company_research_report" <;> simp [he, hj, hc]

theorem consumeEvent_job_listings (a : Acc) (e : Event) :
    (consumeEvent a e).job_listings = (updateValue e "job_listings").getD a.job_listings := by
  unfold consumeEvent
  rw [applyFinalMessage_job_listings, applyStateUpdate_job_listings]
  rfl

theorem consumeEvent_company (a : Acc) (e : Event) :
    (consumeEvent a e).company_research =
      (updateValue e "company_research_report").getD a.company_research := by
  unfold consumeEvent
  rw [applyFinalMessage_company, applyStateUpdate_company]
  rfl

theorem consumeEvent_final (a : Acc) (e : Event) :
    (consumeEvent a e).final_message = (finalText e).getD a.final_message := by
  unfold consumeEvent
  rw [applyFinalMessage_final, applyStateUpdate_final]
  rfl

theorem foldl_consume_job_listings (evs : List Event) (a : Acc) :
    (evs.foldl consumeEvent a).job_listings =
      (lastWriteValue "job_listings" evs).getD a.job_listings := by
  induction evs generalizing a with
  | nil => simp [lastWriteValue]
  | cons e evs ih =>
    simp only [List.foldl_cons, lastWriteValue, ih, consumeEvent_job_listings]
    cases h : lastWriteValue "job_listings" evs <;> simp [Option.orElse, h]

theorem foldl_consume_company (evs : List Event) (a : Acc) :
    (evs.foldl consumeEvent a).company_research =
      (lastWriteValue "company_research_report" evs).getD a.company_research := by
  induction evs generalizing a with
  | nil => simp [lastWriteValue]
  | cons e evs ih =>
    simp only [List.foldl_cons, lastWriteValue, ih, consumeEvent_company]
    cases h : lastWriteValue "company_research_report" evs <;> simp [Option.orElse, h]

theorem foldl_consume_final (evs : List Event) (a : Acc) :
    (evs.foldl consumeEvent a).final_message =
      (lastFinalText evs).getD a.final_message := by
  induction evs generalizing a with
  | nil => simp [lastFinalText]
  | cons e evs ih =>
    simp only [List.foldl_cons, lastFinalText, ih, consumeEvent_final]
    cases h : lastFinalText evs <;> simp [Option.orElse, h]

theorem finalText_not_empty (e : Event) (t : String) (h : finalText e = some t) :
    t.isEmpty = false := by
  rcases e with ⟨su, fin, co⟩
  rcases co with _ | ⟨role, parts⟩
  · simp [finalText] at h
  · rcases parts with _ | ⟨t0, rest⟩
    · simp [finalText] at h
    · by_cases hf : (fin && role == "model") = true
      · by_cases ht : t0.isEmpty = true
        · simp [finalText, hf, ht] at h
        · simp [finalText, hf, ht] at h
          subst h
          simpa using ht
      · simp [finalText, hf] at h

theorem lastFinalText_not_empty (evs : List Event) (t : String)
    (h : lastFinalText evs = some t) : t.isEmpty = false := by
  induction evs with
  | nil => simp [lastFinalText] at h
  | cons e evs ih =>
    unfold lastFinalText at h
    cases hl : lastFinalText evs with
    | some u =>
      rw [hl] at h
      simp [Option.orElse] at h
      subst h
      exact ih hl
    | none =>
      rw [hl] at h
      simp [Option.orElse] at h
      exact finalText_not_empty e t h

theorem ne_empty_of_isEmpty_false (s : String) (h : s.isEmpty = false) : s ≠ "" := by
  intro he
  rw [he] at h
  exact absurd h (by decide)

theorem append_ne_empty_left (s t : String) (hs : s.length ≠ 0) : s ++ t ≠ "" := by
  intro h
  have h2 := congrArg String.length h
  rw [String.length_append] at h2
  rw [show ("" : String).length = 0 from rfl] at h2
  exact hs (by omega)

theorem concat3_ne_empty (a b c : String) (ha : a.length ≠ 0) : a ++ b ++ c ≠ "" := by
  intro h
  have h2 := congrArg String.length h
  rw [String.length_append, String.length_append] at h2
  rw [show ("" : String).length = 0 from rfl] at h2
  exact ha (by omega)

theorem completedOutcome_message (evs : List Event) (fl : LookupResult) :
    (completedOutcome evs fl).message =
      (lastFinalText evs).getD "Processing job search..." := by
  simp only [completedOutcome, consumeEvents]
  rw [foldl_consume_final]

theorem completedOutcome_message_ne (evs : List Event) (fl : LookupResult) :
    (completedOutcome evs fl).message ≠ "" := by
  rw [completedOutcome_message]
  cases h : lastFinalText evs with
  | none => simp
  | some t =>
    simp only [Option.getD_some]
    exact ne_empty_of_isEmpty_false t (lastFinalText_not_empty evs t h)

theorem completedOutcome_status (evs : List Event) (fl : LookupResult) :
    (completedOutcome evs fl).status = "success" := rfl

theorem completedOutcome_data (evs : List Event) (fl : LookupResult) :
    (completedOutcome evs fl).data =
      buildResponseData (consumeEvents evs).raw_events
        (backfill (consumeEvents evs) fl).1 (backfill (consumeEvents evs) fl).2 := rfl

/-- The response data never binds `"job_listings"` when the accumulated or
backfilled value is falsy. -/
theorem buildResponseData_no_job (raw : List Event) (jl cr : PyVal)
    (h : truthy jl = false) :
    dictGet (buildResponseData raw jl cr) "job_listings" = Option.none := by
  unfold buildResponseData
  rw [h]
  simp only [Bool.false_eq_true, if_false]
  by_cases hc : truthy cr = true
  · rw [if_pos hc]
    cases cr with
    | str s => rfl
    | none => rfl
    | bool b => rfl
    | int n => rfl
    | float q => rfl
    | list xs => rfl
    | dict kvs => rfl
  · rw [if_neg hc]
    rfl

/-- The response data never binds `"company_research"` when the
accumulated or backfilled value is falsy. -/
theorem buildResponseData_no_company (raw : List Event) (jl cr : PyVal)
    (h : truthy cr = false) :
    dictGet (buildResponseData raw jl cr) "company_research" = Option.none := by
  unfold buildResponseData
  rw [h]
  simp only [Bool.false_eq_true, if_false]
  by_cases hj : truthy jl = true
  · rw [if_pos hj]
    cases he : extractField jl with
    | some v => rfl
    | none => rfl
  · rw [if_neg hj]
    rfl

/-- The unbound-name path: when the job-listings branch was not entered
(`importsBound = false`) and the company value is a string, the
`company_research` field is absent regardless of the string's content. -/
theorem buildResponseData_company_string_skipped (raw : List Event) (jl : PyVal)
    (s : String) (h : truthy jl = false) :
    dictGet (buildResponseData raw jl (PyVal.str s)) "company_research" =
      Option.none := by
  unfold buildResponseData
  rw [h]
  simp only [Bool.false_eq_true, if_false]
  by_cases hc : truthy (PyVal.str s) = true
  · rw [if_pos hc]
    rfl
  · rw [if_neg hc]
    rfl

theorem process_task_validation (tm : TaskManager) (msg : String)
    (ctx : List (String × PyVal)) (sid : Option String) (env : Env)
    (hu : truthy ((dictGet ctx "user_id").getD PyVal.none) = false) :
    process_task tm msg ctx sid env =
      ({ message := "user_id is required in the request"
         status := "error"
         data := [("error_type", PyVal.str "ValidationError")] }, {}) := by
  simp [process_task, hu]

theorem process_task_completed (tm : TaskManager) (msg : String)
    (ctx : List (String × PyVal)) (sid : Option String) (env : Env)
    (evs : List Event)
    (hu : truthy ((dictGet ctx "user_id").getD PyVal.none) = true)
    (hr : env.run = RunResult.completed evs) :
    (process_task tm msg ctx sid env).1 = completedOutcome evs env.finalLookup := by
  cases hl : env.lookup <;> simp [process_task, hu, hr, hl]

theorem process_task_failed (tm : TaskManager) (msg : String)
    (ctx : List (String × PyVal)) (sid : Option String) (env : Env)
    (evs : List Event) (excType excText : String)
    (hu : truthy ((dictGet ctx "user_id").getD PyVal.none) = true)
    (hr : env.run = RunResult.failed evs excType excText) :
    (process_task tm msg ctx sid env).1 =
      { message := "Error processing your request: " ++ excText
        status := "error"
        data := [("error_type", PyVal.str excType)] } := by
  cases hl : env.lookup <;> simp [process_task, hu, hr, hl]

theorem process_task_timedOut (tm : TaskManager) (msg : String)
    (ctx : List (String × PyVal)) (sid : Option String) (env : Env)
    (evs : List Event)
    (hu : truthy ((dictGet ctx "user_id").getD PyVal.none) = true)
    (hr : env.run = RunResult.timedOut evs) :
    (process_task tm msg ctx sid env).1 =
      { message := "Request timed out after " ++ pyStr (PyVal.float tm.timeout) ++
          " seconds. Please try again."
        status := "error"
        data := [("error_type", PyVal.str "TimeoutError"),
                 ("timeout", PyVal.float tm.timeout)] } ∧
    (process_task tm msg ctx sid env).2.closes = 2 ∧
    (process_task tm msg ctx sid env).2.streamStarted = true := by
  refine ⟨?_, ?_, ?_⟩ <;> cases hl : env.lookup <;> simp [process_task, hu, hr, hl]

/-! ### Concrete sample inputs used by witnesses -/

/-- Sample request context carrying a caller identifier. -/
def ctxU1 : List (String × PyVal) := [("user_id", PyVal.str "u1")]

/-- Oracle with a not-found session lookup and the given run result. -/
def envOf (r : RunResult) : Env :=
  { lookup := LookupResult.notFound
    finalLookup := LookupResult.notFound
    run := r
    genSuffix := "abcd1234" }

/-! ### The claims -/

/-- C1: `process_task` is total at its boundary: for every input on which a
session can be established it returns an outcome with status in
success/error and a non-empty message, and any exception raised while
running the pipeline is converted into an error outcome whose
`data.error_type` is the exception's class name and whose message embeds
the original error text; the exception is not re-raised (in the model,
`process_task` is a total function into `Outcome`). -/
theorem c1_process_task_total_boundary (tm : TaskManager) (msg : String)
    (ctx : List (String × PyVal)) (sid : Option String) (env : Env) :
    ((process_task tm msg ctx sid env).1.status = "success" ∨
      (process_task tm msg ctx sid env).1.status = "error") ∧
    (process_task tm msg ctx sid env).1.message ≠ "" ∧
    (∀ evs excType excText,
      truthy ((dictGet ctx "user_id").getD PyVal.none) = true →
      env.run = RunResult.failed evs excType excText →
      (process_task tm msg ctx sid env).1.status = "error" ∧
      dictGet (process_task tm msg ctx sid env).1.data "error_type" =
        some (PyVal.str excType) ∧
      (process_task tm msg ctx sid env).1.message =
        "Error processing your request: " ++ excText) := by
  by_cases hu : truthy ((dictGet ctx "user_id").getD PyVal.none) = true
  · cases hr : env.run with
    | completed evs =>
      have hp := process_task_completed tm msg ctx sid env evs hu hr
      refine ⟨Or.inl (by rw [hp]; rfl), ?_, ?_⟩
      · rw [hp]
        exact completedOutcome_message_ne evs env.finalLookup
      · intro evs2 ty tx _ hr2
        exact absurd hr2 (by simp)
    | timedOut evs =>
      have hp := (process_task_timedOut tm msg ctx sid env evs hu hr).1
      refine ⟨Or.inr (by rw [hp]), ?_, ?_⟩
      · rw [hp]
        exact concat3_ne_empty _ _ _ (by decide)
      · intro evs2 ty tx _ hr2
        exact absurd hr2 (by simp)
    | failed evs ty tx =>
      have hp := process_task_failed tm msg ctx sid env evs ty tx hu hr
      refine ⟨Or.inr (by rw [hp]), ?_, ?_⟩
      · rw [hp]
        exact append_ne_empty_left _ _ (by decide)
      · intro evs2 ty2 tx2 _ hr2
        injection hr2 with h1 h2 h3
        subst h2
        subst h3
        rw [hp]
        exact ⟨rfl, rfl, rfl⟩
  · have hu2 : truthy ((dictGet ctx "user_id").getD PyVal.none) = false := by
      revert hu
      cases truthy ((dictGet ctx "user_id").getD PyVal.none) <;> simp
    have hp := process_task_validation tm msg ctx sid env hu2
    refine ⟨Or.inr (by rw [hp]), by rw [hp]; decide, ?_⟩
    intro _ _ _ hu3 _
    exact absurd hu3 hu

/-- Witness for C1 at a concrete failing run. -/
theorem c1_witness :
    (process_task {} "find jobs" ctxU1 Option.none
        (envOf (RunResult.failed [] "ValueError" "boom"))).1.status = "error" ∧
    dictGet (process_task {} "find jobs" ctxU1 Option.none
        (envOf (RunResult.failed [] "ValueError" "boom"))).1.data "error_type" =
      some (PyVal.str "ValueError") ∧
    (process_task {} "find jobs" ctxU1 Option.none
        (envOf (RunResult.failed [] "ValueError" "boom"))).1.message =
      "Error processing your request: " ++ "boom" :=
  (c1_process_task_total_boundary {} "find jobs" ctxU1 Option.none
      (envOf (RunResult.failed [] "ValueError" "boom"))).2.2 [] "ValueError" "boom"
    (by decide) rfl

/-- C2: when the event-consuming loop does not finish within the configured
timeout, the outcome is an error of kind `TimeoutError` carrying the
configured timeout value, and the generator was explicitly closed (the
model returns an outcome, so the timeout is not raised past the
boundary). -/
theorem c2_timeout_outcome (tm : TaskManager) (msg : String)
    (ctx : List (String × PyVal)) (sid : Option String) (env : Env)
    (evs : List Event)
    (hu : truthy ((dictGet ctx "user_id").getD PyVal.none) = true)
    (hr : env.run = RunResult.timedOut evs) :
    (process_task tm msg ctx sid env).1.status = "error" ∧
    dictGet (process_task tm msg ctx sid env).1.data "error_type" =
      some (PyVal.str "TimeoutError") ∧
    dictGet (process_task tm msg ctx sid env).1.data "timeout" =
      some (PyVal.float tm.timeout) ∧
    0 < (process_task tm msg ctx sid env).2.closes := by
  obtain ⟨hp, hc, _⟩ := process_task_timedOut tm msg ctx sid env evs hu hr
  exact ⟨by rw [hp], by rw [hp]; rfl, by rw [hp]; rfl, by rw [hc]; omega⟩

/-- Witness for C2 at a concrete timed-out run with timeout 60. -/
theorem c2_witness :
    (process_task ⟨60⟩ "find jobs" ctxU1 Option.none
        (envOf (RunResult.timedOut []))).1.status = "error" ∧
    dictGet (process_task ⟨60⟩ "find jobs" ctxU1 Option.none
        (envOf (RunResult.timedOut []))).1.data "error_type" =
      some (PyVal.str "TimeoutError") ∧
    dictGet (process_task ⟨60⟩ "find jobs" ctxU1 Option.none
        (envOf (RunResult.timedOut []))).1.data "timeout" =
      some (PyVal.float (60 : Rat)) ∧
    0 < (process_task ⟨60⟩ "find jobs" ctxU1 Option.none
        (envOf (RunResult.timedOut []))).2.closes :=
  c2_timeout_outcome ⟨60⟩ "find jobs" ctxU1 Option.none
    (envOf (RunResult.timedOut [])) [] (by decide) rfl

/-- C3 (code bug): at the failing input where the 2nd of 3 lease
acquisitions raises, `create_coordinator_agent` propagates the composition
error with the 1st lease still acquired and zero releases observed — the
claimed release of already-acquired leases does not happen, because the
function never exits its `AsyncExitStack` on the failure path. -/
theorem c3_second_acquire_fail_leaks :
    (create_coordinator_agent
        { coach := Except.ok ()
          listing := Except.error "MCP connect failed"
          research := Except.ok () }).1 = Except.error "MCP connect failed" ∧
    (create_coordinator_agent
        { coach := Except.ok ()
          listing := Except.error "MCP connect failed"
          research := Except.ok () }).2.acquired = 1 ∧
    (create_coordinator_agent
        { coach := Except.ok ()
          listing := Except.error "MCP connect failed"
          research := Except.ok () }).2.released = 0 :=
  ⟨rfl, rfl, rfl⟩

/-- C4: a request whose context lacks a truthy caller identifier is
rejected with a `ValidationError` outcome before any session-store or
stream work: the trace records no lookup, no created session and no
started stream. -/
theorem c4_missing_user_id (tm : TaskManager) (msg : String)
    (ctx : List (String × PyVal)) (sid : Option String) (env : Env)
    (hu : truthy ((dictGet ctx "user_id").getD PyVal.none) = false) :
    (process_task tm msg ctx sid env).1.status = "error" ∧
    dictGet (process_task tm msg ctx sid env).1.data "error_type" =
      some (PyVal.str "ValidationError") ∧
    (process_task tm msg ctx sid env).2.lookups = 0 ∧
    (process_task tm msg ctx sid env).2.created = [] ∧
    (process_task tm msg ctx sid env).2.streamStarted = false := by
  have hp := process_task_validation tm msg ctx sid env hu
  rw [hp]
  exact ⟨rfl, rfl, rfl, rfl, rfl⟩

/-- Witness for C4 at an empty context. -/
theorem c4_witness :
    (process_task {} "find jobs" [] Option.none
        (envOf (RunResult.completed []))).1.status = "error" ∧
    dictGet (process_task {} "find jobs" [] Option.none
        (envOf (RunResult.completed []))).1.data "error_type" =
      some (PyVal.str "ValidationError") ∧
    (process_task {} "find jobs" [] Option.none
        (envOf (RunResult.completed []))).2.lookups = 0 ∧
    (process_task {} "find jobs" [] Option.none
        (envOf (RunResult.completed []))).2.created = [] ∧
    (process_task {} "find jobs" [] Option.none
        (envOf (RunResult.completed []))).2.streamStarted = false :=
  c4_missing_user_id {} "find jobs" [] Option.none
    (envOf (RunResult.completed [])) (by decide)

/-- C5: a raising session lookup behaves exactly like a not-found lookup —
the error is swallowed and `process_task` falls back to `create_session`
with empty initial state for the same (app, user, session id) key, as
recorded in the trace. -/
theorem c5_lookup_error_falls_back (tm : TaskManager) (msg : String)
    (ctx : List (String × PyVal)) (sid : Option String) (env : Env)
    (excType excText : String) :
    process_task tm msg ctx sid { env with lookup := LookupResult.raised excType excText } =
      process_task tm msg ctx sid { env with lookup := LookupResult.notFound } ∧
    (truthy ((dictGet ctx "user_id").getD PyVal.none) = true →
      (process_task tm msg ctx sid
          { env with lookup := LookupResult.raised excType excText }).2.created =
        [(A2A_APP_NAME, pyStr ((dictGet ctx "user_id").getD PyVal.none),
          resolveSessionId (pyStr ((dictGet ctx "user_id").getD PyVal.none))
            sid env.genSuffix, [])]) := by
  constructor
  · by_cases hu : truthy ((dictGet ctx "user_id").getD PyVal.none) = true
    · cases hr : env.run <;> simp [process_task, hu, hr]
    · have hu2 : truthy ((dictGet ctx "user_id").getD PyVal.none) = false := by
        revert hu
        cases truthy ((dictGet ctx "user_id").getD PyVal.none) <;> simp
      simp [process_task, hu2]
  · intro hu
    cases hr : env.run <;> simp [process_task, hu, hr]

/-- Witness for C5 at a concrete raised lookup. -/
theorem c5_witness :
    process_task {} "find jobs" ctxU1 (some "sess1")
        { lookup := LookupResult.raised "RuntimeError" "store down"
          finalLookup := LookupResult.notFound
          run := RunResult.completed []
          genSuffix := "abcd1234" } =
      process_task {} "find jobs" ctxU1 (some "sess1")
        { lookup := LookupResult.notFound
          finalLookup := LookupResult.notFound
          run := RunResult.completed []
          genSuffix := "abcd1234" } ∧
    (process_task {} "find jobs" ctxU1 (some "sess1")
        { lookup := LookupResult.raised "RuntimeError" "store down"
          finalLookup := LookupResult.notFound
          run := RunResult.completed []
          genSuffix := "abcd1234" }).2.created =
      [(A2A_APP_NAME, "u1", "sess1", [])] := by
  have h := c5_lookup_error_falls_back {} "find jobs" ctxU1 (some "sess1")
    { lookup := LookupResult.notFound
      finalLookup := LookupResult.notFound
      run := RunResult.completed []
      genSuffix := "abcd1234" } "RuntimeError" "store down"
  exact ⟨h.1, (h.2 (by decide)).trans rfl⟩

/-- Two-event run updating the same recognized key with 1 and then 2. -/
def evsTwoWrites : List Event :=
  [{ stateUpdate := some [("job_listings", PyVal.int 1)]
     isFinal := false
     content := Option.none },
   { stateUpdate := some [("job_listings", PyVal.int 2)]
     isFinal := false
     content := Option.none }]

/-- C6: event aggregation is last-write-wins per recognized key — the
consumption loop's accumulator always holds the value of the last event
that updated the key (for both recognized keys), and in the concrete
two-event run writing 1 then 2 to the same key, the final aggregated
outcome data holds 2. -/
theorem c6_last_write_wins :
    (∀ evs : List Event,
      (consumeEvents evs).job_listings =
        (lastWriteValue "job_listings" evs).getD PyVal.none ∧
      (consumeEvents evs).company_research =
        (lastWriteValue "company_research_report" evs).getD PyVal.none) ∧
    dictGet (process_task {} "search" ctxU1 Option.none
        (envOf (RunResult.completed evsTwoWrites))).1.data "job_listings" =
      some (PyVal.int 2) := by
  constructor
  · intro evs
    exact ⟨foldl_consume_job_listings evs {}, foldl_consume_company evs {}⟩
  · rfl

/-- The well-formed fenced JSON payload from the spec's round-trip test. -/
def sFenced : String := "```json\n\x7b\"a\":1\x7d\n```"

/-- The malformed fenced payload from the spec's round-trip test. -/
def sMalformed : String := "```json\n\x7ba:1\x7d\n```"

/-- Run in which the pipeline emits the malformed payload as job
listings. -/
def evsMalformed : List Event :=
  [{ stateUpdate := some [("job_listings", PyVal.str sMalformed)]
     isFinal := false
     content := Option.none }]

/-- C7: the result extractor satisfies the fenced-JSON round trip: the
well-formed fenced payload parses to the map, the malformed payload yields
no value (field absent, overall task still succeeds) and a payload that is
already a structured map is passed through unchanged without parsing.
Shown both for the extraction step inside `process_task` and for
`unwrap_json_string`. -/
theorem c7_fenced_json_round_trip :
    extractField (PyVal.str sFenced) = some (PyVal.dict [("a", PyVal.int 1)]) ∧
    unwrap_json_string (some sFenced) = some (PyVal.dict [("a", PyVal.int 1)]) ∧
    extractField (PyVal.str sMalformed) = Option.none ∧
    unwrap_json_string (some sMalformed) = Option.none ∧
    (process_task {} "search" ctxU1 Option.none
        (envOf (RunResult.completed evsMalformed))).1.status = "success" ∧
    dictGet (process_task {} "search" ctxU1 Option.none
        (envOf (RunResult.completed evsMalformed))).1.data "job_listings" =
      Option.none ∧
    (∀ kvs, extractField (PyVal.dict kvs) = some (PyVal.dict kvs)) := by
  refine ⟨?_, ?_, ?_, ?_, ?_, ?_, fun _ => rfl⟩ <;> rfl

/-- C8 counterexample: in a completed run with no terminal content the
final message is the initial sentinel "Processing job search...", not the
claimed "no response generated". -/
theorem c8_counterexample :
    (process_task {} "search" ctxU1 Option.none
        (envOf (RunResult.completed []))).1.message = "Processing job search..." ∧
    "Processing job search..." ≠ "no response generated" :=
  ⟨rfl, by decide⟩

/-- C8 (amended): the final message of a successful run is the text of the
last terminal event authored by the pipeline (role "model") with non-empty
text; when no terminal content ever arrives the message falls back to the
sentinel "Processing job search..." (not "no response generated"). -/
theorem c8_final_message (tm : TaskManager) (msg : String)
    (ctx : List (String × PyVal)) (sid : Option String) (env : Env)
    (evs : List Event)
    (hu : truthy ((dictGet ctx "user_id").getD PyVal.none) = true)
    (hr : env.run = RunResult.completed evs) :
    (process_task tm msg ctx sid env).1.message =
      (lastFinalText evs).getD "Processing job search..." := by
  rw [process_task_completed tm msg ctx sid env evs hu hr]
  exact completedOutcome_message evs env.finalLookup

/-- Witness for C8's amended claim: a final model event with text "done"
becomes the outcome message. -/
theorem c8_witness :
    (process_task {} "search" ctxU1 Option.none
        (envOf (RunResult.completed
          [{ stateUpdate := Option.none
             isFinal := true
             content := some { role := "model", parts := ["done"] } }]))).1.message =
      "done" :=
  (c8_final_message {} "search" ctxU1 Option.none
      (envOf (RunResult.completed
        [{ stateUpdate := Option.none
           isFinal := true
           content := some { role := "model", parts := ["done"] } }]))
      [{ stateUpdate := Option.none
         isFinal := true
         content := some { role := "model", parts := ["done"] } }]
      (by decide) rfl).trans rfl

/-- C9: `process_task` tests results for truthiness rather than presence —
whenever the accumulated-or-backfilled value for a recognized key is
falsy, the corresponding key is omitted from the outcome data (even when
the pipeline explicitly emitted or persisted that empty value), and a
falsy in-event value is overwritten by backfill from session state. -/
theorem c9_truthiness_not_presence (tm : TaskManager) (msg : String)
    (ctx : List (String × PyVal)) (sid : Option String) (env : Env)
    (evs : List Event)
    (hu : truthy ((dictGet ctx "user_id").getD PyVal.none) = true)
    (hr : env.run = RunResult.completed evs) :
    (truthy (backfill (consumeEvents evs) env.finalLookup).1 = false →
      dictGet (process_task tm msg ctx sid env).1.data "job_listings" =
        Option.none) ∧
    (truthy (backfill (consumeEvents evs) env.finalLookup).2 = false →
      dictGet (process_task tm msg ctx sid env).1.data "company_research" =
        Option.none) ∧
    (∀ st w, env.finalLookup = LookupResult.found st → st.isEmpty = false →
      truthy (consumeEvents evs).job_listings = false →
      dictGet st "job_listings" = some w →
      (backfill (consumeEvents evs) env.finalLookup).1 = w) := by
  refine ⟨?_, ?_, ?_⟩
  · intro h
    rw [process_task_completed tm msg ctx sid env evs hu hr, completedOutcome_data]
    exact buildResponseData_no_job _ _ _ h
  · intro h
    rw [process_task_completed tm msg ctx sid env evs hu hr, completedOutcome_data]
    exact buildResponseData_no_company _ _ _ h
  · intro st w hfl hst hjl hw
    rw [hfl]
    simp [backfill, hst, hjl, hw]

/-- Run in which the pipeline explicitly emits an empty job-listings
value. -/
def evsEmptyJob : List Event :=
  [{ stateUpdate := some [("job_listings", PyVal.list [])]
     isFinal := false
     content := Option.none }]

/-- Oracle whose final session state also persists the empty value. -/
def envEmptyJob : Env :=
  { lookup := LookupResult.notFound
    finalLookup := LookupResult.found [("job_listings", PyVal.list [])]
    run := RunResult.completed evsEmptyJob
    genSuffix := "abcd1234" }

/-- Witness for C9: the empty list emitted and persisted for
`job_listings` is backfilled (overwriting the falsy in-event value) and
then omitted from the outcome data. -/
theorem c9_witness :
    dictGet (process_task {} "search" ctxU1 Option.none
        envEmptyJob).1.data "job_listings" = Option.none ∧
    (backfill (consumeEvents evsEmptyJob) envEmptyJob.finalLookup).1 =
      PyVal.list [] := by
  have h := c9_truthiness_not_presence {} "search" ctxU1 Option.none
    envEmptyJob evsEmptyJob (by decide) rfl
  exact ⟨h.1 rfl, h.2.2 [("job_listings", PyVal.list [])] (PyVal.list []) rfl rfl rfl rfl⟩

/-- C10: `json` and `re` are imported only inside the job-listings parsing
branch, so in a completed run with no truthy job-listings value and a
string-valued company research report, the company-research parse attempt
fails on the unbound name, the failure is swallowed, the key is absent
from the outcome data (even for well-formed fenced JSON — the statement is
universal in the string), and the run still returns success. -/
theorem c10_unbound_parser_names (tm : TaskManager) (msg : String)
    (ctx : List (String × PyVal)) (sid : Option String) (env : Env)
    (evs : List Event) (s : String)
    (hu : truthy ((dictGet ctx "user_id").getD PyVal.none) = true)
    (hr : env.run = RunResult.completed evs)
    (hjl : truthy (backfill (consumeEvents evs) env.finalLookup).1 = false)
    (hcr : (backfill (consumeEvents evs) env.finalLookup).2 = PyVal.str s) :
    dictGet (process_task tm msg ctx sid env).1.data "company_research" =
      Option.none ∧
    (process_task tm msg ctx sid env).1.status = "success" := by
  constructor
  · rw [process_task_completed tm msg ctx sid env evs hu hr, completedOutcome_data, hcr]
    exact buildResponseData_company_string_skipped _ _ s hjl
  · rw [process_task_completed tm msg ctx sid env evs hu hr]
    exact completedOutcome_status evs env.finalLookup

/-- Run emitting a well-formed fenced-JSON company research report and no
job listings. -/
def evsCompanyOnly : List Event :=
  [{ stateUpdate := some [("company_research_report", PyVal.str sFenced)]
     isFinal := false
     content := Option.none }]

/-- Witness for C10: even though the report is well-formed fenced JSON,
`company_research` is absent and the run succeeds. -/
theorem c10_witness :
    dictGet (process_task {} "search" ctxU1 Option.none
        (envOf (RunResult.completed evsCompanyOnly))).1.data "company_research" =
      Option.none ∧
    (process_task {} "search" ctxU1 Option.none
        (envOf (RunResult.completed evsCompanyOnly))).1.status = "success" ∧
    json_loads (stripFence sFenced) = some (PyVal.dict [("a", PyVal.int 1)]) := by
  have h := c10_unbound_parser_names {} "search" ctxU1 Option.none
    (envOf (RunResult.completed evsCompanyOnly)) evsCompanyOnly sFenced
    (by decide) rfl rfl rfl
  exact ⟨h.1, h.2, by rfl⟩

end GetHired
